import Mathlib

/-!
Shallow embedding of the lmswebsiteBackend student/batch controllers
(`src/controllers/studentController.js`, `src/controllers/batchController.js`).

The document database is modelled as an explicit state (`DB`); each controller
becomes a pure function from request data and state to an `Except` result,
where `ErrResp` carries the HTTP status code and message the controller sends.
Mongo ObjectId generation for inserts is modelled by the `nextStudentId` /
`nextBatchId` fields of the state.  The multi-document transaction of
`createBatch` is modelled by the function returning the unchanged input state
on any error (rollback) and the fully updated state on success (commit).
-/

/-- One `batch_creation` marker embedded in a student document:
`{subject_id, status}`. -/
structure Marker where
  subject_id : String
  status : Bool
  deriving DecidableEq, Repr

/-- Denormalised class snapshot stored on a student (the `class` field set by
`updateStudent`: `{_id, name, classLevel}`). -/
structure ClassSnap where
  _id : String
  name : String
  classLevel : String
  deriving DecidableEq, Repr

/-- A document of the `Student` collection, with the fields the controllers
read or write.  Optional string references absent from a fresh document are
modelled as `""`; the `batch_creation` array can be genuinely absent
(`none`), which the eligibility query distinguishes via `$exists`. -/
structure Student where
  _id : String
  auth_id : String
  student_id : String
  user_id : String
  role : String
  subscribed_Package : String
  is_paid : Bool
  batch_creation : Option (List Marker)
  «class» : Option ClassSnap
  subscription_id : String
  payment_id : String
  last_online : String
  phone_number : String
  deriving DecidableEq, Repr

/-- A document of the `Package` collection: `subject_id` is the array of
subjects the package contains (`Package.find({subject_id: s})` matches
array membership). -/
structure Package where
  _id : String
  subject_id : List String
  deriving DecidableEq, Repr

/-- A document of the `Class` collection (`classModel`). -/
structure ClassDoc where
  _id : String
  className : String
  classLevel : String
  deriving DecidableEq, Repr

/-- A document of the `Batch` collection. -/
structure Batch where
  _id : String
  batch_name : String
  batch_image : Option String
  subject_id : String
  class_id : String
  teacher_id : String
  students : List String
  date : String
  type_of_batch : String
  deriving DecidableEq, Repr

/-- The database state: one list per collection touched by the controllers,
plus the ObjectIds that Mongo would assign to the next inserted student /
batch document. -/
structure DB where
  students : List Student
  batches : List Batch
  subjects : List String
  packages : List Package
  classes : List ClassDoc
  nextStudentId : String
  nextBatchId : String
  deriving DecidableEq, Repr

/-- An HTTP error response: status code and the `message`/`error` string. -/
structure ErrResp where
  status : Nat
  msg : String
  deriving DecidableEq, Repr

/-- Hexadecimal digit test used by ObjectId validity. -/
def isHexChar (c : Char) : Bool :=
  c.isDigit || ('a' ≤ c && c ≤ 'f') || ('A' ≤ c && c ≤ 'F')

/-- Model of `mongoose.Types.ObjectId.isValid` on strings: a 24-character
hexadecimal string, or a 12-character string (read as 12 raw bytes). -/
def isValidObjectId (s : String) : Bool :=
  (s.length == 24 && s.toList.all isHexChar) || s.length == 12

/-- The ids of all student documents, in collection order. -/
def studentIds (db : DB) : List String :=
  db.students.map (fun st => st._id)

/-- Model of `Student.countDocuments({ _id: { $in: ids } })`: the number of
student documents whose `_id` occurs in `ids`. -/
def countDocuments (ids : List String) (db : DB) : Nat :=
  (db.students.filter (fun st => decide (st._id ∈ ids))).length

/-- Model of `$addToSet: { batch_creation: m }` on one student document:
creates a one-element array when the field is absent, otherwise appends `m`
unless an identical element is already present. -/
def addToSetList (m : Marker) : Option (List Marker) → List Marker
  | none => [m]
  | some l => if m ∈ l then l else l ++ [m]

/-- The per-student update performed by `createBatch`'s bulk operation:
`$addToSet {subject_id: subj, status: true}` into `batch_creation`. -/
def applyBatchMarker (subj : String) (st : Student) : Student :=
  { st with batch_creation := some (addToSetList ⟨subj, true⟩ st.batch_creation) }

/-- `updateOne` with filter `{_id: sid}`: updates the first matching
document, leaves the rest untouched. -/
def updateOneAddMarker (sid subj : String) : List Student → List Student
  | [] => []
  | st :: rest =>
    if st._id == sid then applyBatchMarker subj st :: rest
    else st :: updateOneAddMarker sid subj rest

/-- Model of `Student.bulkWrite(bulkOps)`: one `updateOne` per roster id,
applied in roster order. -/
def bulkAddMarkers (ids : List String) (subj : String) (sts : List Student) : List Student :=
  ids.foldl (fun acc sid => updateOneAddMarker sid subj acc) sts

/-- The `batch_creation` entries of a student (empty when the field is
absent). -/
def markerList (st : Student) : List Marker :=
  st.batch_creation.getD []

/-- The raw `students` value of a batch-creation request body: absent,
present but not an array, or an array of id strings. -/
inductive StudentsInput where
  | missing
  | nonArray
  | arr (ids : List String)
  deriving DecidableEq, Repr

/-- The body of a `createBatch` request. -/
structure CreateBatchReq where
  batch_name : Option String
  batch_image : Option String
  subject_id : Option String
  class_id : Option String
  teacher_id : Option String
  students : StudentsInput
  date : Option String
  type_of_batch : Option String
  deriving DecidableEq, Repr

/-- JavaScript truthiness of an optional string field (absent and `""` are
falsy). -/
def strTruthy : Option String → Bool
  | none => false
  | some s => !(s == "")

/-- JavaScript truthiness of the `students` field: any present value,
including an empty array, is truthy. -/
def studentsTruthy : StudentsInput → Bool
  | .missing => false
  | .nonArray => true
  | .arr _ => true

/-- The `createBatch` required-field check
(`!batch_name || !subject_id || !class_id || !teacher_id || !students ||
!date || !type_of_batch`); `batch_image` is not checked. -/
def reqFieldsPresent (req : CreateBatchReq) : Bool :=
  strTruthy req.batch_name && strTruthy req.subject_id && strTruthy req.class_id &&
    strTruthy req.teacher_id && studentsTruthy req.students && strTruthy req.date &&
    strTruthy req.type_of_batch

def errAllFields : ErrResp := ⟨400, "All fields are required"⟩

def errNotArray : ErrResp := ⟨400, "'students' must be an array of student IDs"⟩

def errInvalidIds : ErrResp := ⟨500, "One or more student IDs are invalid"⟩

/-- The phase of `createBatch` before any write: the required-field check,
the `Array.isArray` check, and the roster existence-count check.  Returns
`none` exactly when the request reaches the write phase. -/
def createBatchValidate (req : CreateBatchReq) (db : DB) : Option ErrResp :=
  if !(reqFieldsPresent req) then some errAllFields
  else
    match req.students with
    | .arr ids =>
      if countDocuments ids db ≠ ids.length then some errInvalidIds else none
    | _ => some errNotArray

/-- Model of `createBatch`: validation, then — inside one transaction — the
batch insert and the per-student `$addToSet` bulk update.  On success the
committed state is returned; on any error the transaction is aborted and the
error response returned. -/
def createBatch (req : CreateBatchReq) (db : DB) : Except ErrResp DB :=
  match createBatchValidate req db with
  | some e => .error e
  | none =>
    match req.students with
    | .arr ids =>
      let newBatch : Batch :=
        { _id := db.nextBatchId
          batch_name := req.batch_name.getD ""
          batch_image := req.batch_image
          subject_id := req.subject_id.getD ""
          class_id := req.class_id.getD ""
          teacher_id := req.teacher_id.getD ""
          students := ids
          date := req.date.getD ""
          type_of_batch := req.type_of_batch.getD "" }
      .ok { db with
              batches := db.batches ++ [newBatch],
              students := bulkAddMarkers ids (req.subject_id.getD "") db.students }
    | _ => .error errNotArray

/-- The database state after a `createBatch` call: on any error the
transaction has been rolled back, so the state is the unchanged input
state. -/
def createBatchDB (req : CreateBatchReq) (db : DB) : DB :=
  match createBatch req db with
  | .ok db' => db'
  | .error _ => db

/-- Model of `getBatchById`: `findById` plus the derived `studentcount`
annotation. -/
def getBatchById (id : String) (db : DB) : Except ErrResp (Batch × Nat) :=
  if id == "" then .error ⟨400, "Batch ID is required"⟩
  else
    match db.batches.find? (fun b => b._id == id) with
    | none => .error ⟨404, "Batch not found"⟩
    | some b => .ok (b, b.students.length)

/-! Counting lemmas for `countDocuments`. -/

lemma countDocuments_eq_length_filter (ids : List String) (db : DB) :
    countDocuments ids db
      = ((studentIds db).filter (fun x => decide (x ∈ ids))).length := by
  unfold countDocuments studentIds
  induction db.students with
  | nil => rfl
  | cons h t ih => by_cases hm : h._id ∈ ids <;> simp [hm, ih]

lemma countDocuments_eq_card (ids : List String) (db : DB)
    (hA : (studentIds db).Nodup) :
    countDocuments ids db = ((studentIds db).toFinset ∩ ids.toFinset).card := by
  rw [countDocuments_eq_length_filter]
  rw [← List.toFinset_card_of_nodup (hA.filter _)]
  congr 1
  ext x
  simp [List.mem_filter, Finset.mem_inter]

lemma countDocuments_le (ids : List String) (db : DB)
    (hA : (studentIds db).Nodup) :
    countDocuments ids db ≤ ids.length := by
  rw [countDocuments_eq_card ids db hA]
  calc ((studentIds db).toFinset ∩ ids.toFinset).card
      ≤ ids.toFinset.card := Finset.card_le_card Finset.inter_subset_right
    _ = ids.dedup.length := List.card_toFinset ids
    _ ≤ ids.length := (List.dedup_sublist ids).length_le

lemma dedup_length_lt_of_not_nodup {ids : List String} (h : ¬ ids.Nodup) :
    ids.dedup.length < ids.length := by
  rcases Nat.lt_or_ge ids.dedup.length ids.length with hlt | hge
  · exact hlt
  · exfalso
    have hle := (List.dedup_sublist ids).length_le
    have heq : ids.dedup = ids :=
      (List.dedup_sublist ids).eq_of_length (Nat.le_antisymm hle hge)
    exact h (heq ▸ ids.nodup_dedup)

lemma countDocuments_lt_of_not_nodup (ids : List String) (db : DB)
    (hA : (studentIds db).Nodup) (h : ¬ ids.Nodup) :
    countDocuments ids db < ids.length := by
  rw [countDocuments_eq_card ids db hA]
  calc ((studentIds db).toFinset ∩ ids.toFinset).card
      ≤ ids.toFinset.card := Finset.card_le_card Finset.inter_subset_right
    _ = ids.dedup.length := List.card_toFinset ids
    _ < ids.length := dedup_length_lt_of_not_nodup h

lemma countDocuments_lt_of_missing (ids : List String) (db : DB) (id : String)
    (hA : (studentIds db).Nodup) (hid : id ∈ ids) (hbad : id ∉ studentIds db) :
    countDocuments ids db < ids.length := by
  rw [countDocuments_eq_card ids db hA]
  have hsub : (studentIds db).toFinset ∩ ids.toFinset ⊆ ids.toFinset.erase id := by
    rw [Finset.subset_erase]
    refine ⟨Finset.inter_subset_right, ?_⟩
    intro hmem
    exact hbad (List.mem_toFinset.mp (Finset.mem_inter.mp hmem).1)
  calc ((studentIds db).toFinset ∩ ids.toFinset).card
      ≤ (ids.toFinset.erase id).card := Finset.card_le_card hsub
    _ < ids.toFinset.card := Finset.card_erase_lt_of_mem (List.mem_toFinset.mpr hid)
    _ = ids.dedup.length := List.card_toFinset ids
    _ ≤ ids.length := (List.dedup_sublist ids).length_le

lemma countDocuments_eq_of_nodup_sub (ids : List String) (db : DB)
    (hA : (studentIds db).Nodup) (hnd : ids.Nodup)
    (hsub : ∀ id ∈ ids, id ∈ studentIds db) :
    countDocuments ids db = ids.length := by
  rw [countDocuments_eq_card ids db hA]
  have hint : (studentIds db).toFinset ∩ ids.toFinset = ids.toFinset := by
    rw [Finset.inter_eq_right]
    intro x hx
    exact List.mem_toFinset.mpr (hsub x (List.mem_toFinset.mp hx))
  rw [hint, List.toFinset_card_of_nodup hnd]

lemma nodup_sub_of_countDocuments_eq (ids : List String) (db : DB)
    (hA : (studentIds db).Nodup)
    (h : countDocuments ids db = ids.length) :
    ids.Nodup ∧ ∀ id ∈ ids, id ∈ studentIds db := by
  constructor
  · by_contra hnd
    exact absurd h (Nat.ne_of_lt (countDocuments_lt_of_not_nodup ids db hA hnd))
  · intro id hid
    by_contra hbad
    exact absurd h (Nat.ne_of_lt (countDocuments_lt_of_missing ids db id hA hid hbad))

/-! Marker-propagation lemmas for `bulkAddMarkers`. -/

lemma mem_addToSetList_self (m : Marker) (bc : Option (List Marker)) :
    m ∈ addToSetList m bc := by
  cases bc with
  | none => simp [addToSetList]
  | some l => by_cases h : m ∈ l <;> simp [addToSetList, h]

lemma mem_addToSetList_of_mem (m m' : Marker) (l : List Marker) (h : m ∈ l) :
    m ∈ addToSetList m' (some l) := by
  by_cases h' : m' ∈ l <;> simp [addToSetList, h', h]

lemma marker_mem_applyBatchMarker (subj : String) (m : Marker) (st : Student)
    (h : m ∈ markerList st) : m ∈ markerList (applyBatchMarker subj st) := by
  cases hbc : st.batch_creation with
  | none => simp [markerList, hbc] at h
  | some l =>
    simp only [markerList, hbc, Option.getD] at h
    simp only [applyBatchMarker, markerList, hbc, Option.getD]
    exact mem_addToSetList_of_mem m ⟨subj, true⟩ l h

/-- After the bulk update, some student document with id `sid` carries the
`{subject_id: subj, status: true}` marker. -/
def hasMarkerFor (sid subj : String) (sts : List Student) : Prop :=
  ∃ st ∈ sts, st._id = sid ∧ (⟨subj, true⟩ : Marker) ∈ markerList st

lemma hasMarkerFor_updateOne (sid sid' subj : String) (sts : List Student)
    (h : hasMarkerFor sid subj sts) :
    hasMarkerFor sid subj (updateOneAddMarker sid' subj sts) := by
  induction sts with
  | nil => simpa [updateOneAddMarker] using h
  | cons st rest ih =>
    obtain ⟨w, hw, hid, hm⟩ := h
    by_cases hhead : st._id == sid'
    · rw [updateOneAddMarker, if_pos hhead]
      rcases List.mem_cons.mp hw with hw | hw
      · subst hw
        exact ⟨applyBatchMarker subj w, List.mem_cons_self _ _,
          hid, marker_mem_applyBatchMarker subj _ w hm⟩
      · exact ⟨w, List.mem_cons_of_mem _ hw, hid, hm⟩
    · rw [updateOneAddMarker, if_neg hhead]
      rcases List.mem_cons.mp hw with hw | hw
      · subst hw
        exact ⟨w, List.mem_cons_self _ _, hid, hm⟩
      · obtain ⟨w', hw', hid', hm'⟩ := ih ⟨w, hw, hid, hm⟩
        exact ⟨w', List.mem_cons_of_mem _ hw', hid', hm'⟩

lemma hasMarkerFor_establish (sid subj : String) (sts : List Student)
    (h : sid ∈ sts.map (fun st => st._id)) :
    hasMarkerFor sid subj (updateOneAddMarker sid subj sts) := by
  induction sts with
  | nil => simp at h
  | cons st rest ih =>
    by_cases hhead : st._id == sid
    · rw [updateOneAddMarker, if_pos hhead]
      refine ⟨applyBatchMarker subj st, List.mem_cons_self _ _, ?_, ?_⟩
      · simpa using hhead
      · simp only [applyBatchMarker, markerList, Option.getD]
        exact mem_addToSetList_self _ _
    · rw [updateOneAddMarker, if_neg hhead]
      have hrest : sid ∈ rest.map (fun st => st._id) := by
        simp only [List.map_cons, List.mem_cons] at h
        rcases h with h | h
        · exact absurd (beq_iff_eq.mpr h.symm) (by simpa using hhead)
        · exact h
      obtain ⟨w, hw, hid, hm⟩ := ih hrest
      exact ⟨w, List.mem_cons_of_mem _ hw, hid, hm⟩

lemma map_id_updateOne (sid subj : String) (sts : List Student) :
    (updateOneAddMarker sid subj sts).map (fun st => st._id)
      = sts.map (fun st => st._id) := by
  induction sts with
  | nil => rfl
  | cons st rest ih =>
    by_cases hhead : st._id == sid
    · rw [updateOneAddMarker, if_pos hhead]
      simp [applyBatchMarker]
    · rw [updateOneAddMarker, if_neg hhead]
      simp [ih]

lemma hasMarkerFor_foldl (ids : List String) (sid subj : String) (sts : List Student)
    (h : hasMarkerFor sid subj sts) :
    hasMarkerFor sid subj (bulkAddMarkers ids subj sts) := by
  induction ids generalizing sts with
  | nil => simpa [bulkAddMarkers] using h
  | cons i rest ih =>
    show hasMarkerFor sid subj (bulkAddMarkers rest subj (updateOneAddMarker i subj sts))
    exact ih _ (hasMarkerFor_updateOne sid i subj sts h)

lemma bulkAddMarkers_marker (ids : List String) (sid subj : String) (sts : List Student)
    (h1 : sid ∈ ids) (h2 : sid ∈ sts.map (fun st => st._id)) :
    hasMarkerFor sid subj (bulkAddMarkers ids subj sts) := by
  induction ids generalizing sts with
  | nil => simp at h1
  | cons i rest ih =>
    show hasMarkerFor sid subj (bulkAddMarkers rest subj (updateOneAddMarker i subj sts))
    rcases List.mem_cons.mp h1 with h1 | h1
    · subst h1
      exact hasMarkerFor_foldl rest sid subj _ (hasMarkerFor_establish sid subj sts h2)
    · exact ih _ h1 (by rwa [map_id_updateOne])

lemma find?_append_right {p : Batch → Bool} (l1 l2 : List Batch)
    (h : ∀ b ∈ l1, p b = false) :
    (l1 ++ l2).find? p = l2.find? p := by
  induction l1 with
  | nil => rfl
  | cons b rest ih =>
    rw [List.cons_append, List.find?_cons, h b (List.mem_cons_self _ _)]
    exact ih (fun b' hb' => h b' (List.mem_cons_of_mem _ hb'))

/-! Student controller (`studentController.js`). -/

/-- Model of `createStudent`: role check, `ObjectId.isValid` check on
`student_id`, one combined existence query
(`findOne({$or: [{auth_id}, {student_id}]})`), then the insert.  Returns the
saved student together with the new state. -/
def createStudent (auth_id user_id student_id role : String) (db : DB) :
    Except ErrResp (Student × DB) :=
  if !(role == "student" || role == "admin") then
    .error ⟨400, "Invalid role. Must be student or admin."⟩
  else if !(isValidObjectId student_id) then
    .error ⟨400, "Invalid student_id format."⟩
  else if db.students.any (fun st => st.auth_id == auth_id || st.student_id == student_id) then
    .error ⟨409, "Student with this auth_id or student_id already exists."⟩
  else
    let newStudent : Student :=
      { _id := db.nextStudentId
        auth_id := auth_id
        student_id := student_id
        user_id := user_id
        role := role
        subscribed_Package := ""
        is_paid := false
        batch_creation := none
        «class» := none
        subscription_id := ""
        payment_id := ""
        last_online := ""
        phone_number := "" }
    .ok (newStudent, { db with students := db.students ++ [newStudent] })

/-- Model of `getStudentById`: keyed on the document's own `_id`
(`Student.findById(id)`). -/
def getStudentById (id : String) (db : DB) : Except ErrResp Student :=
  if !(isValidObjectId id) then .error ⟨400, "Invalid student ID format."⟩
  else
    match db.students.find? (fun st => st._id == id) with
    | none => .error ⟨404, "Student not found."⟩
    | some st => .ok st

/-- Deletion of the first document whose `student_id` field equals `id`
(the effect of `Student.findOneAndDelete({ student_id: id })`). -/
def removeFirstByStudentId (id : String) : List Student → List Student
  | [] => []
  | st :: rest =>
    if st.student_id == id then rest else st :: removeFirstByStudentId id rest

/-- Model of `deleteStudent`: ObjectId format check, then
`Student.findOneAndDelete({ student_id: id })` — keyed on the `student_id`
field, not on `_id`. -/
def deleteStudent (id : String) (db : DB) : Except ErrResp DB :=
  if !(isValidObjectId id) then .error ⟨400, "Invalid student ID format."⟩
  else if db.students.any (fun st => st.student_id == id) then
    .ok { db with students := removeFirstByStudentId id db.students }
  else .error ⟨404, "Student not found"⟩

/-- The body of an `updateStudent` request (`class_id` destructured apart,
the rest is `updateData`); `none` models an absent field. -/
structure UpdateReq where
  class_id : Option String := none
  auth_id : Option String := none
  student_id : Option String := none
  user_id : Option String := none
  subscribed_Package : Option String := none
  is_paid : Option Bool := none
  subscription_id : Option String := none
  payment_id : Option String := none
  last_online : Option String := none
  phone_number : Option String := none
  deriving DecidableEq, Repr

/-- JavaScript `x || prior` applied to an optional string request field:
an absent field or an explicit `""` (falsy) keeps the prior value. -/
def jsOr (v : Option String) (prior : String) : String :=
  match v with
  | none => prior
  | some s => if s == "" then prior else s

/-- The field-by-field assignment block of `updateStudent`.  Every plain
field uses `||` (absent keeps prior); `is_paid` uses an explicit
`!== undefined` test, so a provided `false` is applied. -/
def applyStudentUpdate (req : UpdateReq) (st : Student) : Student :=
  { st with
      auth_id := jsOr req.auth_id st.auth_id
      student_id := jsOr req.student_id st.student_id
      user_id := jsOr req.user_id st.user_id
      subscribed_Package := jsOr req.subscribed_Package st.subscribed_Package
      is_paid := match req.is_paid with
        | some b => b
        | none => st.is_paid
      subscription_id := jsOr req.subscription_id st.subscription_id
      payment_id := jsOr req.payment_id st.payment_id
      last_online := jsOr req.last_online st.last_online
      phone_number := jsOr req.phone_number st.phone_number }

/-- Replacement of the first document whose `user_id` equals `uid` (the
effect of saving the modified document found by
`Student.findOne({ user_id: studentId })`). -/
def replaceFirstByUserId (uid : String) (upd : Student) : List Student → List Student
  | [] => []
  | st :: rest =>
    if st.user_id == uid then upd :: rest else st :: replaceFirstByUserId uid upd rest

/-- Model of `updateStudent`: resolves the student by its `user_id`
(profile reference), optionally re-resolves `class_id` into a denormalised
snapshot, applies the partial update, and saves.  Returns the updated
student and the new state. -/
def updateStudent (studentId : String) (req : UpdateReq) (db : DB) :
    Except ErrResp (Student × DB) :=
  match db.students.find? (fun st => st.user_id == studentId) with
  | none => .error ⟨404, "Student not found"⟩
  | some st =>
    if strTruthy req.class_id then
      match db.classes.find? (fun c => c._id == (req.class_id.getD "")) with
      | none => .error ⟨404, "Class not found"⟩
      | some cinfo =>
        let st1 := { st with «class» := some ⟨cinfo._id, cinfo.className, cinfo.classLevel⟩ }
        let st2 := applyStudentUpdate req st1
        .ok (st2, { db with students := replaceFirstByUserId studentId st2 db.students })
    else
      let st2 := applyStudentUpdate req st
      .ok (st2, { db with students := replaceFirstByUserId studentId st2 db.students })

/-! Batch lookups (`batchController.js`). -/

/-- Model of `getBatchesByTeacherId`: the caller's role must be
`"teacher"`, and an empty result is a 404. -/
def getBatchesByTeacherId (role teacherId : String) (db : DB) :
    Except ErrResp (List Batch) :=
  if !(role == "teacher") then .error ⟨403, "Access denied: Not a teacher"⟩
  else
    let batches := db.batches.filter (fun b => b.teacher_id == teacherId)
    if batches.isEmpty then .error ⟨404, "No batches found for this teacher"⟩
    else .ok batches

/-- Model of `getBatchesByStudentId`: `Batch.find({students: studentId})`
(array membership), returned as-is — an empty result is a 200. -/
def getBatchesByStudentId (studentId : String) (db : DB) :
    Except ErrResp (List Batch) :=
  .ok (db.batches.filter (fun b => decide (studentId ∈ b.students)))

/-! Eligibility query (`getStudentsforBatchBySubject`). -/

/-- The ids of the packages whose `subject_id` array contains the subject
(`Package.find({subject_id: subjectId}).select("_id")`). -/
def packagesWithSubject (subjectId : String) (db : DB) : List String :=
  (db.packages.filter (fun p => decide (subjectId ∈ p.subject_id))).map (fun p => p._id)

/-- The student filter of the eligibility query: subscribed to one of the
packages, paid, and `batch_creation` absent (`$exists: false`), empty
(`$size: 0`), or without an element matching
`{subject_id: subjectId, status: true}` (`$not: {$elemMatch: ...}`). -/
def eligibleFilter (subjectId : String) (packageIds : List String) (st : Student) : Bool :=
  decide (st.subscribed_Package ∈ packageIds) && st.is_paid &&
    (st.batch_creation.isNone ||
      st.batch_creation == some [] ||
      !((markerList st).any (fun m => m.subject_id == subjectId && m.status)))

/-- Model of `getStudentsforBatchBySubject`: subject-id validity, subject
existence, package resolution, the student filter, and the empty-result
404. -/
def getStudentsforBatchBySubject (subjectId : String) (db : DB) :
    Except ErrResp (List Student) :=
  if !(isValidObjectId subjectId) then .error ⟨400, "Invalid subject ID"⟩
  else if !(decide (subjectId ∈ db.subjects)) then .error ⟨404, "Subject not found"⟩
  else
    let packageIds := packagesWithSubject subjectId db
    if packageIds.isEmpty then .error ⟨404, "No packages found for this subject"⟩
    else
      let students := db.students.filter (eligibleFilter subjectId packageIds)
      if students.isEmpty then .error ⟨404, "No eligible students found for this subject"⟩
      else .ok students

/-! Extraction lemmas for `createBatch`. -/

lemma createBatchValidate_none_iff (req : CreateBatchReq) (db : DB) :
    createBatchValidate req db = none ↔
      reqFieldsPresent req = true ∧
        ∃ ids, req.students = .arr ids ∧ countDocuments ids db = ids.length := by
  unfold createBatchValidate
  cases hp : reqFieldsPresent req with
  | false => simp
  | true =>
    cases hs : req.students with
    | missing => simp
    | nonArray => simp
    | arr ids =>
      by_cases hc : countDocuments ids db = ids.length <;> simp [hc]

lemma createBatch_ok_elim {req : CreateBatchReq} {db db' : DB} {ids : List String}
    (hs : req.students = .arr ids) (hok : createBatch req db = .ok db') :
    countDocuments ids db = ids.length ∧
      ∃ nb : Batch, nb._id = db.nextBatchId ∧ nb.students = ids ∧
        nb.subject_id = req.subject_id.getD "" ∧
        db'.batches = db.batches ++ [nb] ∧
        db'.students = bulkAddMarkers ids (req.subject_id.getD "") db.students := by
  unfold createBatch at hok
  cases hv : createBatchValidate req db with
  | some e => rw [hv] at hok; exact absurd hok (by simp)
  | none =>
    rw [hv, hs] at hok
    simp only [Except.ok.injEq] at hok
    obtain ⟨-, ids', hs', hc⟩ := (createBatchValidate_none_iff req db).mp hv
    rw [hs] at hs'
    injection hs' with hids
    subst hids
    refine ⟨hc, ?_⟩
    refine ⟨{ _id := db.nextBatchId
              batch_name := req.batch_name.getD ""
              batch_image := req.batch_image
              subject_id := req.subject_id.getD ""
              class_id := req.class_id.getD ""
              teacher_id := req.teacher_id.getD ""
              students := ids
              date := req.date.getD ""
              type_of_batch := req.type_of_batch.getD "" }, rfl, rfl, rfl, ?_, ?_⟩
    · rw [← hok]
    · rw [← hok]

/-! Claim C1. -/

/-- C1: for every batch-creation request in which at least one id in the
submitted roster does not resolve to an existing student document,
`createBatch` fails, and the transaction leaves the state unchanged — no
batch is inserted and no student's `batch_creation` array is modified. -/
theorem c1_createBatch_invalid_id_atomic
    (req : CreateBatchReq) (db : DB) (ids : List String) (id : String)
    (hnd : (studentIds db).Nodup)
    (hs : req.students = .arr ids) (hid : id ∈ ids) (hbad : id ∉ studentIds db) :
    (∃ e, createBatch req db = .error e) ∧ createBatchDB req db = db := by
  have herr : ∃ e, createBatch req db = .error e := by
    unfold createBatch
    cases hv : createBatchValidate req db with
    | some e => exact ⟨e, rfl⟩
    | none =>
      exfalso
      obtain ⟨-, ids', hs', hc⟩ := (createBatchValidate_none_iff req db).mp hv
      rw [hs] at hs'
      injection hs' with hids
      subst hids
      exact absurd hc
        (Nat.ne_of_lt (countDocuments_lt_of_missing ids db id hnd hid hbad))
  obtain ⟨e, he⟩ := herr
  refine ⟨⟨e, he⟩, ?_⟩
  unfold createBatchDB
  rw [he]

def c1req : CreateBatchReq :=
  { batch_name := some "Batch A"
    batch_image := none
    subject_id := some "subj1"
    class_id := some "class1"
    teacher_id := some "teach1"
    students := .arr ["stud1"]
    date := some "2024-01-01"
    type_of_batch := some "online" }

def c1db : DB :=
  { students := []
    batches := []
    subjects := []
    packages := []
    classes := []
    nextStudentId := "s0"
    nextBatchId := "b0" }

theorem c1_createBatch_invalid_id_atomic_witness :
    (∃ e, createBatch c1req c1db = .error e) ∧ createBatchDB c1req c1db = c1db :=
  c1_createBatch_invalid_id_atomic c1req c1db ["stud1"] "stud1"
    (by decide) rfl (by decide) (by decide)

/-! Claim C10. -/

/-- C10: a roster that contains the same student id more than once is
rejected with the invalid-student-id error even when every id in it
resolves to an existing student, because `countDocuments` counts distinct
matching documents and the count is compared to the roster's length. -/
theorem c10_createBatch_rejects_duplicate_roster
    (req : CreateBatchReq) (db : DB) (ids : List String)
    (hnd : (studentIds db).Nodup)
    (hp : reqFieldsPresent req = true)
    (hs : req.students = .arr ids)
    (hdup : ¬ ids.Nodup)
    (_hall : ∀ id ∈ ids, id ∈ studentIds db) :
    createBatch req db = .error errInvalidIds := by
  have hlt := countDocuments_lt_of_not_nodup ids db hnd hdup
  unfold createBatch createBatchValidate
  rw [hs, hp]
  simp [Nat.ne_of_lt hlt]

def c10db : DB :=
  { students :=
      [{ _id := "stud1"
         auth_id := "a1"
         student_id := "sid1"
         user_id := "u1"
         role := "student"
         subscribed_Package := ""
         is_paid := false
         batch_creation := none
         «class» := none
         subscription_id := ""
         payment_id := ""
         last_online := ""
         phone_number := "" }]
    batches := []
    subjects := []
    packages := []
    classes := []
    nextStudentId := "s0"
    nextBatchId := "b0" }

def c10req : CreateBatchReq :=
  { batch_name := some "Batch A"
    batch_image := none
    subject_id := some "subj1"
    class_id := some "class1"
    teacher_id := some "teach1"
    students := .arr ["stud1", "stud1"]
    date := some "2024-01-01"
    type_of_batch := some "online" }

theorem c10_createBatch_rejects_duplicate_roster_witness :
    createBatch c10req c10db = .error errInvalidIds :=
  c10_createBatch_rejects_duplicate_roster c10req c10db ["stud1", "stud1"]
    (by decide) (by decide) rfl (by decide) (by decide)

/-! Claim C2. -/

/-- C2: for every valid batch-creation request over a roster of existing
students, after `createBatch` succeeds the new batch is retrievable (by the
id assigned to it) and every roster student's document carries at least one
`batch_creation` entry whose `subject_id` is the batch's subject and whose
`status` is `true`. -/
theorem c2_createBatch_success_batch_and_markers
    (req : CreateBatchReq) (db db' : DB) (ids : List String)
    (hnd : (studentIds db).Nodup)
    (hs : req.students = .arr ids)
    (hfresh : ∀ b ∈ db.batches, b._id ≠ db.nextBatchId)
    (hnid : db.nextBatchId ≠ "")
    (hok : createBatch req db = .ok db') :
    ∃ b, getBatchById db.nextBatchId db' = .ok (b, b.students.length) ∧
      b.students = ids ∧ b.subject_id = req.subject_id.getD "" ∧
      ∀ sid ∈ ids, ∃ st ∈ db'.students, st._id = sid ∧
        ∃ m ∈ markerList st, m.subject_id = b.subject_id ∧ m.status = true := by
  obtain ⟨hc, nb, hnbid, hnbsts, hnbsubj, hb, hsts⟩ := createBatch_ok_elim hs hok
  obtain ⟨hndids, hsub⟩ := nodup_sub_of_countDocuments_eq ids db hnd hc
  refine ⟨nb, ?_, hnbsts, hnbsubj, ?_⟩
  · unfold getBatchById
    have hne : (db.nextBatchId == "") ≠ true := by simpa using hnid
    rw [if_neg hne, hb,
      find?_append_right _ _ (fun b hbmem => by simpa using hfresh b hbmem)]
    have hfind : List.find? (fun b => b._id == db.nextBatchId) [nb] = some nb := by
      simp [List.find?, hnbid]
    rw [hfind]
  · intro sid hsid
    have hmem : sid ∈ db.students.map (fun st => st._id) := hsub sid hsid
    obtain ⟨st, hst, hid, hm⟩ :=
      bulkAddMarkers_marker ids sid (req.subject_id.getD "") db.students hsid hmem
    rw [hsts]
    exact ⟨st, hst, hid, ⟨req.subject_id.getD "", true⟩, hm, hnbsubj.symm, rfl⟩

def c2db : DB :=
  { students :=
      [{ _id := "stud1"
         auth_id := "a1"
         student_id := "sid1"
         user_id := "u1"
         role := "student"
         subscribed_Package := "pack1"
         is_paid := true
         batch_creation := none
         «class» := none
         subscription_id := ""
         payment_id := ""
         last_online := ""
         phone_number := "" }]
    batches := []
    subjects := ["subj1"]
    packages := [{ _id := "pack1", subject_id := ["subj1"] }]
    classes := []
    nextStudentId := "s0"
    nextBatchId := "b0" }

def c2req : CreateBatchReq :=
  { batch_name := some "Batch A"
    batch_image := none
    subject_id := some "subj1"
    class_id := some "class1"
    teacher_id := some "teach1"
    students := .arr ["stud1"]
    date := some "2024-01-01"
    type_of_batch := some "online" }

/-- The state committed by the witness run of `createBatch`. -/
def c2dbAfter : DB := createBatchDB c2req c2db

theorem c2_createBatch_success_batch_and_markers_witness :
    ∃ b, getBatchById c2db.nextBatchId c2dbAfter = .ok (b, b.students.length) ∧
      b.students = ["stud1"] ∧ b.subject_id = c2req.subject_id.getD "" ∧
      ∀ sid ∈ ["stud1"], ∃ st ∈ c2dbAfter.students, st._id = sid ∧
        ∃ m ∈ markerList st, m.subject_id = b.subject_id ∧ m.status = true :=
  c2_createBatch_success_batch_and_markers c2req c2db c2dbAfter ["stud1"]
    (by decide) rfl (by decide) (by decide) rfl

/-! Claim C4. -/

def c4req : CreateBatchReq :=
  { batch_name := some "Batch A"
    batch_image := none
    subject_id := some "subj1"
    class_id := some "class1"
    teacher_id := some "teach1"
    students := .arr []
    date := some "2024-01-01"
    type_of_batch := some "online" }

def c4db : DB :=
  { students := []
    batches := []
    subjects := []
    packages := []
    classes := []
    nextStudentId := "s0"
    nextBatchId := "b0" }

/-- C4 counterexample: a request whose `students` argument is the empty
array is NOT rejected by `createBatch`'s validation phase: in JavaScript
`![]` is `false`, so the empty array passes the required-field check, it
passes `Array.isArray`, and the existence-count check compares `0` with
`0`.  The validation phase returns no error, so the request is not
"rejected before any write occurs" with a `ValidationError`. -/
theorem c4_empty_roster_passes_validation :
    createBatchValidate c4req c4db = none := by decide

/-- C4 amended: `createBatch` fails with a 400 `ValidationError` when one of
the seven checked fields (`batch_name`, `subject_id`, `class_id`,
`teacher_id`, `students`, `date`, `type_of_batch`) is missing or falsy, or
when `students` is present but not an array; non-emptiness of the roster is
NOT validated — an empty `students` array passes the whole validation phase
(the count check holds as `0 = 0`) and reaches the write phase. -/
theorem c4_createBatch_validation_characterisation
    (req : CreateBatchReq) (db : DB) :
    (reqFieldsPresent req = false →
      createBatchValidate req db = some errAllFields ∧ errAllFields.status = 400) ∧
    (reqFieldsPresent req = true → req.students = .nonArray →
      createBatchValidate req db = some errNotArray ∧ errNotArray.status = 400) ∧
    (∀ ids, reqFieldsPresent req = true → req.students = .arr ids →
      countDocuments ids db = ids.length →
      createBatchValidate req db = none) := by
  refine ⟨?_, ?_, ?_⟩
  · intro hp
    unfold createBatchValidate
    rw [hp]
    exact ⟨rfl, rfl⟩
  · intro hp hs
    unfold createBatchValidate
    rw [hp, hs]
    exact ⟨rfl, rfl⟩
  · intro ids hp hs hc
    unfold createBatchValidate
    rw [hp, hs]
    simp [hc]

def c4reqMissing : CreateBatchReq :=
  { batch_name := none
    batch_image := none
    subject_id := some "subj1"
    class_id := some "class1"
    teacher_id := some "teach1"
    students := .arr ["stud1"]
    date := some "2024-01-01"
    type_of_batch := some "online" }

theorem c4_createBatch_validation_characterisation_witness :
    (createBatchValidate c4reqMissing c4db = some errAllFields ∧
      errAllFields.status = 400) ∧
    createBatchValidate c4req c4db = none :=
  ⟨(c4_createBatch_validation_characterisation c4reqMissing c4db).1 (by decide),
    (c4_createBatch_validation_characterisation c4req c4db).2.2 []
      (by decide) rfl (by decide)⟩

/-! Claim C5. -/

lemma addToSetList_idem (m : Marker) (bc : Option (List Marker)) :
    addToSetList m (some (addToSetList m bc)) = addToSetList m bc := by
  have h := mem_addToSetList_self m bc
  rw [show addToSetList m (some (addToSetList m bc))
        = if m ∈ addToSetList m bc then addToSetList m bc
          else addToSetList m bc ++ [m] from rfl,
    if_pos h]

/-- C5: the per-student marker update of `createBatch` has add-if-absent
semantics.  Applying the update twice for the same subject equals applying
it once (so a second batch for the same subject and student is idempotent
on the marker); adding `{subject_id, status: true}` to an array already
containing an identical entry leaves the array unchanged; but an existing
`{subject_id, status: false}` entry is not replaced — when a student's only
marker for the subject has status `false`, the update yields two marker
entries for that subject. -/
theorem c5_marker_add_if_absent_semantics
    (subj : String) (st : Student) (l : List Marker) :
    applyBatchMarker subj (applyBatchMarker subj st) = applyBatchMarker subj st ∧
    ((⟨subj, true⟩ : Marker) ∈ l → addToSetList ⟨subj, true⟩ (some l) = l) ∧
    (l.filter (fun m => m.subject_id == subj) = [⟨subj, false⟩] →
      (addToSetList ⟨subj, true⟩ (some l)).filter (fun m => m.subject_id == subj)
        = [⟨subj, false⟩, ⟨subj, true⟩]) := by
  refine ⟨?_, ?_, ?_⟩
  · simp [applyBatchMarker, addToSetList_idem]
  · intro h
    simp [addToSetList, h]
  · intro h
    have hnot : (⟨subj, true⟩ : Marker) ∉ l := by
      intro hmem
      have : (⟨subj, true⟩ : Marker) ∈ l.filter (fun m => m.subject_id == subj) :=
        List.mem_filter.mpr ⟨hmem, by simp⟩
      rw [h] at this
      simp at this
    rw [addToSetList, if_neg hnot, List.filter_append, h]
    simp

def c5markers : List Marker := [⟨"subj1", false⟩]

theorem c5_marker_add_if_absent_semantics_witness :
    ((⟨"subj1", true⟩ : Marker) ∈ [(⟨"subj1", true⟩ : Marker)] →
      addToSetList ⟨"subj1", true⟩ (some [⟨"subj1", true⟩]) = [⟨"subj1", true⟩]) ∧
    (c5markers.filter (fun m => m.subject_id == "subj1") = [⟨"subj1", false⟩] →
      (addToSetList ⟨"subj1", true⟩ (some c5markers)).filter
          (fun m => m.subject_id == "subj1")
        = [⟨"subj1", false⟩, ⟨"subj1", true⟩]) ∧
    addToSetList ⟨"subj1", true⟩ (some c5markers)
      = [⟨"subj1", false⟩, ⟨"subj1", true⟩] :=
  ⟨(c5_marker_add_if_absent_semantics "subj1"
      { _id := "x", auth_id := "", student_id := "", user_id := "", role := "",
        subscribed_Package := "", is_paid := false, batch_creation := none,
        «class» := none, subscription_id := "", payment_id := "",
        last_online := "", phone_number := "" } [⟨"subj1", true⟩]).2.1,
    (c5_marker_add_if_absent_semantics "subj1"
      { _id := "x", auth_id := "", student_id := "", user_id := "", role := "",
        subscribed_Package := "", is_paid := false, batch_creation := none,
        «class» := none, subscription_id := "", payment_id := "",
        last_online := "", phone_number := "" } c5markers).2.2,
    by decide⟩

/-! Claim C6. -/

/-- C6: student creation fails with a 400 `ValidationError` when the role
is not one of the two recognized values or when `student_id` is not a
well-formed ObjectId; it fails with a 409 `ConflictError` when some
existing record has the same `auth_id` or the same `student_id` (one
combined existence query over the disjunction); otherwise it persists the
new record and returns it. -/
theorem c6_createStudent_cases (a u s r : String) (db : DB) :
    (¬(r = "student" ∨ r = "admin") →
      createStudent a u s r db = .error ⟨400, "Invalid role. Must be student or admin."⟩) ∧
    ((r = "student" ∨ r = "admin") → isValidObjectId s = false →
      createStudent a u s r db = .error ⟨400, "Invalid student_id format."⟩) ∧
    ((r = "student" ∨ r = "admin") → isValidObjectId s = true →
      (∃ st ∈ db.students, st.auth_id = a ∨ st.student_id = s) →
      createStudent a u s r db
        = .error ⟨409, "Student with this auth_id or student_id already exists."⟩) ∧
    ((r = "student" ∨ r = "admin") → isValidObjectId s = true →
      (∀ st ∈ db.students, st.auth_id ≠ a ∧ st.student_id ≠ s) →
      ∃ st', createStudent a u s r db
          = .ok (st', { db with students := db.students ++ [st'] }) ∧
        st'.auth_id = a ∧ st'.student_id = s ∧ st'.user_id = u ∧ st'.role = r) := by
  refine ⟨?_, ?_, ?_, ?_⟩
  · intro hr
    have hb : (r == "student" || r == "admin") = false := by
      simp only [Bool.or_eq_false_iff, beq_eq_false_iff_ne]
      exact ⟨fun h => hr (Or.inl h), fun h => hr (Or.inr h)⟩
    unfold createStudent
    rw [hb]
    rfl
  · intro hr hv
    have hb : (r == "student" || r == "admin") = true := by
      rcases hr with h | h <;> simp [h]
    unfold createStudent
    rw [hb, hv]
    rfl
  · intro hr hv hex
    have hb : (r == "student" || r == "admin") = true := by
      rcases hr with h | h <;> simp [h]
    have hany : (db.students.any fun st => st.auth_id == a || st.student_id == s) = true := by
      rw [List.any_eq_true]
      obtain ⟨st, hst, hor⟩ := hex
      refine ⟨st, hst, ?_⟩
      rcases hor with h | h <;> simp [h]
    unfold createStudent
    rw [hb, hv, hany]
    rfl
  · intro hr hv hnone
    have hb : (r == "student" || r == "admin") = true := by
      rcases hr with h | h <;> simp [h]
    have hany : (db.students.any fun st => st.auth_id == a || st.student_id == s) = false := by
      rw [List.any_eq_false]
      intro st hst
      obtain ⟨h1, h2⟩ := hnone st hst
      simp [h1, h2]
    unfold createStudent
    rw [hb, hv, hany]
    exact ⟨_, rfl, rfl, rfl, rfl, rfl⟩

def c6id24 : String := "0123456789abcdef01234567"

def c6db : DB :=
  { students := []
    batches := []
    subjects := []
    packages := []
    classes := []
    nextStudentId := "s0"
    nextBatchId := "b0" }

theorem c6_createStudent_cases_witness :
    ∃ st', createStudent "auth1" "user1" c6id24 "student" c6db
        = .ok (st', { c6db with students := c6db.students ++ [st'] }) ∧
      st'.auth_id = "auth1" ∧ st'.student_id = c6id24 ∧
      st'.user_id = "user1" ∧ st'.role = "student" :=
  (c6_createStudent_cases "auth1" "user1" c6id24 "student" c6db).2.2.2
    (Or.inl rfl) (by decide) (by decide)

/-! Claim C7. -/

def c7idA : String := "aaaaaaaaaaaaaaaaaaaaaaaa"

def c7idB : String := "bbbbbbbbbbbbbbbbbbbbbbbb"

def c7db : DB :=
  { students :=
      [{ _id := c7idA
         auth_id := "auth1"
         student_id := c7idB
         user_id := "user1"
         role := "student"
         subscribed_Package := ""
         is_paid := false
         batch_creation := none
         «class» := none
         subscription_id := ""
         payment_id := ""
         last_online := ""
         phone_number := "" }]
    batches := []
    subjects := []
    packages := []
    classes := []
    nextStudentId := "s0"
    nextBatchId := "b0" }

/-- C7 counterexample: `getStudentById` resolves a student under its `_id`,
but `deleteStudent` filters on the `student_id` field
(`findOneAndDelete({ student_id: id })`).  For a record whose `_id` and
`student_id` differ, the fetch under the id succeeds while the delete under
the very same id fails with `NotFoundError` — so the remove operation does
not fail "exactly when no student record with that id is present" under the
id used by `get(id)`. -/
theorem c7_delete_key_mismatch_counterexample :
    (∃ st, getStudentById c7idA c7db = .ok st) ∧
    deleteStudent c7idA c7db = .error ⟨404, "Student not found"⟩ :=
  ⟨⟨_, rfl⟩, rfl⟩

/-- C7 amended: the remove operation is keyed on the `student_id` field
rather than the primary `_id` used by `get(id)`: for a well-formed id it
fails with `NotFoundError` exactly when no record's `student_id` field
equals the id, and otherwise unconditionally deletes the first record whose
`student_id` field equals the id. -/
theorem c7_deleteStudent_keyed_on_student_id_field
    (id : String) (db : DB) (hvalid : isValidObjectId id = true) :
    (deleteStudent id db = .error ⟨404, "Student not found"⟩ ↔
      ∀ st ∈ db.students, st.student_id ≠ id) ∧
    ((∃ st ∈ db.students, st.student_id = id) →
      deleteStudent id db = .ok { db with students := removeFirstByStudentId id db.students }) := by
  unfold deleteStudent
  rw [hvalid]
  simp only [Bool.not_true, Bool.false_eq_true, if_false]
  by_cases hany : (db.students.any fun st => st.student_id == id) = true
  · rw [if_pos hany]
    constructor
    · constructor
      · intro h
        exact absurd h (by simp)
      · intro hall
        obtain ⟨st, hst, heq⟩ := List.any_eq_true.mp hany
        exact absurd (beq_iff_eq.mp heq) (hall st hst)
    · intro _
      rfl
  · rw [if_neg hany]
    constructor
    · constructor
      · intro _ st hst hne
        rw [List.any_eq_true] at hany
        exact hany ⟨st, hst, beq_iff_eq.mpr hne⟩
      · intro _
        rfl
    · intro hex
      obtain ⟨st, hst, heq⟩ := hex
      have hc : (db.students.any fun st => st.student_id == id) = true :=
        List.any_eq_true.mpr ⟨st, hst, beq_iff_eq.mpr heq⟩
      exact absurd hc hany

theorem c7_deleteStudent_keyed_on_student_id_field_witness :
    deleteStudent c7idB c7db
      = .ok { c7db with students := removeFirstByStudentId c7idB c7db.students } :=
  (c7_deleteStudent_keyed_on_student_id_field c7idB c7db (by decide)).2
    ⟨_, List.mem_cons_self _ _, rfl⟩

/-! Claim C8. -/

/-- C8: the by-teacher batch lookup fails with a 403 `ForbiddenError` for
every caller whose role is not `teacher`, and fails with a 404
`NotFoundError` when the teacher has no batches; the by-student lookup,
for a student referenced by no batch, instead succeeds with an empty
result. -/
theorem c8_batch_lookup_error_behaviour
    (role teacherId studentId : String) (db : DB) :
    (role ≠ "teacher" →
      getBatchesByTeacherId role teacherId db
        = .error ⟨403, "Access denied: Not a teacher"⟩) ∧
    (role = "teacher" →
      db.batches.filter (fun b => b.teacher_id == teacherId) = [] →
      getBatchesByTeacherId role teacherId db
        = .error ⟨404, "No batches found for this teacher"⟩) ∧
    ((∀ b ∈ db.batches, studentId ∉ b.students) →
      getBatchesByStudentId studentId db = .ok []) := by
  refine ⟨?_, ?_, ?_⟩
  · intro hr
    unfold getBatchesByTeacherId
    rw [if_pos (by simpa using hr)]
  · intro hr hempty
    unfold getBatchesByTeacherId
    rw [if_neg (by simp [hr]), hempty]
    rfl
  · intro hnone
    unfold getBatchesByStudentId
    have : db.batches.filter (fun b => decide (studentId ∈ b.students)) = [] := by
      rw [List.filter_eq_nil_iff]
      intro b hb
      simpa using hnone b hb
    rw [this]

def c8db : DB :=
  { students := []
    batches :=
      [{ _id := "batch1"
         batch_name := "Batch A"
         batch_image := none
         subject_id := "subj1"
         class_id := "class1"
         teacher_id := "teach1"
         students := ["stud1"]
         date := "2024-01-01"
         type_of_batch := "online" }]
    subjects := []
    packages := []
    classes := []
    nextStudentId := "s0"
    nextBatchId := "b0" }

theorem c8_batch_lookup_error_behaviour_witness :
    getBatchesByTeacherId "admin" "teach1" c8db
        = .error ⟨403, "Access denied: Not a teacher"⟩ ∧
    getBatchesByTeacherId "teacher" "teach2" c8db
        = .error ⟨404, "No batches found for this teacher"⟩ ∧
    getBatchesByStudentId "stud2" c8db = .ok [] :=
  ⟨(c8_batch_lookup_error_behaviour "admin" "teach1" "stud2" c8db).1 (by decide),
    (c8_batch_lookup_error_behaviour "teacher" "teach2" "stud2" c8db).2.1 rfl (by decide),
    (c8_batch_lookup_error_behaviour "teacher" "teach2" "stud2" c8db).2.2 (by decide)⟩

/-! Claim C9. -/

/-- C9: `updateStudent` has partial-update semantics: every field omitted
from the request keeps its prior value in the stored record, and `is_paid`
distinguishes an explicit `false` from an absent field — `is_paid: false`
is applied, whereas an absent (`undefined`) `is_paid` keeps the prior
value. -/
theorem c9_updateStudent_partial_semantics
    (studentId : String) (req : UpdateReq) (db : DB) (st u : Student) (db' : DB)
    (hfind : db.students.find? (fun s => s.user_id == studentId) = some st)
    (hok : updateStudent studentId req db = .ok (u, db')) :
    (req.auth_id = none → u.auth_id = st.auth_id) ∧
    (req.student_id = none → u.student_id = st.student_id) ∧
    (req.user_id = none → u.user_id = st.user_id) ∧
    (req.subscribed_Package = none → u.subscribed_Package = st.subscribed_Package) ∧
    (req.subscription_id = none → u.subscription_id = st.subscription_id) ∧
    (req.payment_id = none → u.payment_id = st.payment_id) ∧
    (req.last_online = none → u.last_online = st.last_online) ∧
    (req.phone_number = none → u.phone_number = st.phone_number) ∧
    (req.class_id = none → u.«class» = st.«class») ∧
    (req.is_paid = none → u.is_paid = st.is_paid) ∧
    (∀ b, req.is_paid = some b → u.is_paid = b) := by
  unfold updateStudent at hok
  split at hok
  · exact absurd hok (by simp)
  · rename_i st' heq
    rw [hfind] at heq
    injection heq with heq'
    subst heq'
    split at hok
    · rename_i hcid
      split at hok
      · exact absurd hok (by simp)
      · rename_i cinfo hcl
        simp only [Except.ok.injEq, Prod.mk.injEq] at hok
        obtain ⟨hu, -⟩ := hok
        subst hu
        refine ⟨fun h => by simp [applyStudentUpdate, jsOr, h],
          fun h => by simp [applyStudentUpdate, jsOr, h],
          fun h => by simp [applyStudentUpdate, jsOr, h],
          fun h => by simp [applyStudentUpdate, jsOr, h],
          fun h => by simp [applyStudentUpdate, jsOr, h],
          fun h => by simp [applyStudentUpdate, jsOr, h],
          fun h => by simp [applyStudentUpdate, jsOr, h],
          fun h => by simp [applyStudentUpdate, jsOr, h],
          fun h => ?_,
          fun h => by simp [applyStudentUpdate, h],
          fun b h => by simp [applyStudentUpdate, h]⟩
        exact absurd hcid (by simp [strTruthy, h])
    · simp only [Except.ok.injEq, Prod.mk.injEq] at hok
      obtain ⟨hu, -⟩ := hok
      subst hu
      exact ⟨fun h => by simp [applyStudentUpdate, jsOr, h],
        fun h => by simp [applyStudentUpdate, jsOr, h],
        fun h => by simp [applyStudentUpdate, jsOr, h],
        fun h => by simp [applyStudentUpdate, jsOr, h],
        fun h => by simp [applyStudentUpdate, jsOr, h],
        fun h => by simp [applyStudentUpdate, jsOr, h],
        fun h => by simp [applyStudentUpdate, jsOr, h],
        fun h => by simp [applyStudentUpdate, jsOr, h],
        fun h => by simp [applyStudentUpdate],
        fun h => by simp [applyStudentUpdate, h],
        fun b h => by simp [applyStudentUpdate, h]⟩

def c9st : Student :=
  { _id := "stud1"
    auth_id := "auth1"
    student_id := "sid1"
    user_id := "user1"
    role := "student"
    subscribed_Package := "pack1"
    is_paid := true
    batch_creation := none
    «class» := none
    subscription_id := "sub1"
    payment_id := "pay1"
    last_online := "2024-01-01"
    phone_number := "111" }

def c9db : DB :=
  { students := [c9st]
    batches := []
    subjects := []
    packages := []
    classes := []
    nextStudentId := "s0"
    nextBatchId := "b0" }

def c9req : UpdateReq := { is_paid := some false }

/-- The result of the witness run of `updateStudent`. -/
def c9res : Student × DB :=
  match updateStudent "user1" c9req c9db with
  | .ok r => r
  | .error _ => (c9st, c9db)

theorem c9_updateStudent_partial_semantics_witness :
    (c9req.auth_id = none → c9res.1.auth_id = c9st.auth_id) ∧
    (c9req.is_paid = none → c9res.1.is_paid = c9st.is_paid) ∧
    (∀ b, c9req.is_paid = some b → c9res.1.is_paid = b) :=
  ⟨(c9_updateStudent_partial_semantics "user1" c9req c9db c9st c9res.1 c9res.2
      rfl rfl).1,
    (c9_updateStudent_partial_semantics "user1" c9req c9db c9st c9res.1 c9res.2
      rfl rfl).2.2.2.2.2.2.2.2.2.1,
    (c9_updateStudent_partial_semantics "user1" c9req c9db c9st c9res.1 c9res.2
      rfl rfl).2.2.2.2.2.2.2.2.2.2⟩

/-! Claim C3. -/

lemma mem_packagesWithSubject_iff (subjectId x : String) (db : DB) :
    x ∈ packagesWithSubject subjectId db ↔
      ∃ p ∈ db.packages, subjectId ∈ p.subject_id ∧ x = p._id := by
  unfold packagesWithSubject
  simp only [List.mem_map, List.mem_filter, decide_eq_true_eq]
  constructor
  · rintro ⟨p, ⟨hp, hs⟩, rfl⟩
    exact ⟨p, hp, hs, rfl⟩
  · rintro ⟨p, hp, hs, rfl⟩
    exact ⟨p, ⟨hp, hs⟩, rfl⟩

lemma eligibleFilter_iff (subjectId : String) (pkgIds : List String) (st : Student) :
    eligibleFilter subjectId pkgIds st = true ↔
      (st.subscribed_Package ∈ pkgIds ∧ st.is_paid = true ∧
        (st.batch_creation = none ∨ st.batch_creation = some [] ∨
          ∀ m ∈ markerList st, ¬(m.subject_id = subjectId ∧ m.status = true))) := by
  unfold eligibleFilter
  cases hbc : st.batch_creation with
  | none => simp [markerList, hbc]
  | some l =>
    simp only [markerList, hbc, Option.getD_some, Option.isNone_some, Bool.false_or]
    rw [Bool.and_eq_true, Bool.and_eq_true, decide_eq_true_eq, Bool.or_eq_true,
      Bool.not_eq_true', List.any_eq_false]
    constructor
    · rintro ⟨⟨hA, hP⟩, hR⟩
      refine ⟨hA, hP, ?_⟩
      rcases hR with hR | hR
      · rw [beq_iff_eq, Option.some.injEq] at hR
        exact Or.inr (Or.inl (congrArg some hR))
      · refine Or.inr (Or.inr ?_)
        intro m hm hc
        have hmt : (m.subject_id == subjectId && m.status) = true := by
          simp [hc.1, hc.2]
        exact absurd hmt (hR m hm)
    · rintro ⟨hA, hP, hR⟩
      refine ⟨⟨hA, hP⟩, ?_⟩
      rcases hR with hR | hR | hR
      · exact absurd hR (by simp)
      · refine Or.inl ?_
        rw [beq_iff_eq, Option.some.injEq]
        injection hR
      · refine Or.inr ?_
        intro m hm hc
        rw [Bool.and_eq_true, beq_iff_eq] at hc
        exact hR m hm hc

/-- C3: for a subject id that is well-formed, resolves to an existing
subject, and is contained in at least one package, the eligibility query
returns exactly the students whose `subscribed_Package` lies in the set of
packages containing the subject, whose `is_paid` is true, and whose
`batch_creation` array is absent, empty, or contains no entry with both
`subject_id` equal to the target and `status` equal to `true` — so a
student whose only marker for the subject has status `false` is still
returned, and an unpaid student is never returned. -/
theorem c3_eligibility_query_characterisation
    (subjectId : String) (db : DB) (st : Student)
    (hvalid : isValidObjectId subjectId = true)
    (hsub : subjectId ∈ db.subjects)
    (hpkg : ∃ p ∈ db.packages, subjectId ∈ p.subject_id) :
    (∃ lst, getStudentsforBatchBySubject subjectId db = .ok lst ∧ st ∈ lst) ↔
      (st ∈ db.students ∧
        (∃ p ∈ db.packages, subjectId ∈ p.subject_id ∧ st.subscribed_Package = p._id) ∧
        st.is_paid = true ∧
        (st.batch_creation = none ∨ st.batch_creation = some [] ∨
          ∀ m ∈ markerList st, ¬(m.subject_id = subjectId ∧ m.status = true))) := by
  unfold getStudentsforBatchBySubject
  rw [if_neg (by simp [hvalid]), if_neg (by simp [hsub])]
  have hpk : ¬ ((packagesWithSubject subjectId db).isEmpty = true) := by
    intro hemp
    obtain ⟨p, hp, hs⟩ := hpkg
    have hmem : p._id ∈ packagesWithSubject subjectId db :=
      (mem_packagesWithSubject_iff subjectId p._id db).mpr ⟨p, hp, hs, rfl⟩
    rw [List.isEmpty_iff.mp hemp] at hmem
    simp at hmem
  rw [if_neg hpk]
  by_cases hse :
      (db.students.filter (eligibleFilter subjectId (packagesWithSubject subjectId db))).isEmpty = true
  · rw [if_pos hse]
    constructor
    · rintro ⟨lst, hlst, -⟩
      exact absurd hlst (by simp)
    · rintro ⟨hmem, hpkgm, hpaid, hmark⟩
      have hin : st ∈ db.students.filter
          (eligibleFilter subjectId (packagesWithSubject subjectId db)) := by
        rw [List.mem_filter]
        exact ⟨hmem, (eligibleFilter_iff _ _ _).mpr
          ⟨(mem_packagesWithSubject_iff _ _ _).mpr hpkgm, hpaid, hmark⟩⟩
      rw [List.isEmpty_iff.mp hse] at hin
      simp at hin
  · rw [if_neg hse]
    constructor
    · rintro ⟨lst, hlst, hmem⟩
      simp only [Except.ok.injEq] at hlst
      subst hlst
      rw [List.mem_filter] at hmem
      obtain ⟨h1, h2⟩ := hmem
      rw [eligibleFilter_iff] at h2
      obtain ⟨hA, hP, hM⟩ := h2
      exact ⟨h1, (mem_packagesWithSubject_iff _ _ _).mp hA, hP, hM⟩
    · rintro ⟨hmem, hpkgm, hpaid, hmark⟩
      refine ⟨_, rfl, ?_⟩
      rw [List.mem_filter]
      exact ⟨hmem, (eligibleFilter_iff _ _ _).mpr
        ⟨(mem_packagesWithSubject_iff _ _ _).mpr hpkgm, hpaid, hmark⟩⟩

def c3subj : String := "cccccccccccccccccccccccc"

def c3st : Student :=
  { _id := "stud1"
    auth_id := "auth1"
    student_id := "sid1"
    user_id := "user1"
    role := "student"
    subscribed_Package := "pack1"
    is_paid := true
    batch_creation := some [⟨c3subj, false⟩]
    «class» := none
    subscription_id := ""
    payment_id := ""
    last_online := ""
    phone_number := "" }

def c3db : DB :=
  { students := [c3st]
    batches := []
    subjects := [c3subj]
    packages := [{ _id := "pack1", subject_id := [c3subj] }]
    classes := []
    nextStudentId := "s0"
    nextBatchId := "b0" }

theorem c3_eligibility_query_characterisation_witness :
    ∃ lst, getStudentsforBatchBySubject c3subj c3db = .ok lst ∧ c3st ∈ lst :=
  (c3_eligibility_query_characterisation c3subj c3db c3st (by decide) (by decide)
      ⟨{ _id := "pack1", subject_id := [c3subj] }, by decide, by decide⟩).mpr
    ⟨by decide, ⟨{ _id := "pack1", subject_id := [c3subj] }, by decide, by decide, rfl⟩,
      rfl, by decide⟩
